import Mathlib

/-
Verification of the X12 EDI 835-remittance decoder
(databricksx12/hls/remittance.py and databricksx12/transaction.py)
against its natural-language specification.

Segments and the stream-navigation helpers (Segment.element, _first,
index_of_segment, segments_by_name, ...) live in modules outside the
sampled sources; they are modelled here from the specification sections
4.1 and 4.2.  Everything else is a direct embedding of the Python source.
-/

namespace X12

/-- Modelled from the spec: a tokenized Segment (spec 3, 4.1).  The raw
token at position 0 is the segment identifier; elements are 1-indexed
against the same token list.  Missing from src: databricksx12 format
module defining the Segment class. -/
structure Segment where
  tokens : List String
deriving DecidableEq

/-- Modelled from the spec: the sentinel "empty segment" returned by
`first` when no segment matches; all element() calls yield "". -/
def Segment.empty : Segment := ⟨[]⟩

/-- Modelled from the spec: the segment identifier, the value at
position 0 of the raw tokenized segment. -/
def Segment.segment_name (s : Segment) : String := s.tokens.getD 0 ""

/-- Modelled from the spec: raw token count of the segment (identifier
included), the quantity the PLB unpacker compares thresholds against. -/
def Segment.segment_len (s : Segment) : Nat := s.tokens.length

/-- Modelled from the spec: `length() -> count of elements` (the
identifier at position 0 is excluded from the element count). -/
def Segment.length (s : Segment) : Nat := s.tokens.length - 1

/-- Modelled from the spec: `element(i) -> string, default "" if i
exceeds the element count or element is empty`; never raises. -/
def Segment.element (s : Segment) (i : Nat) : String := s.tokens.getD i ""

/-- Splits a character list on the composite separator ":"; splitting
the empty list yields one empty group, matching Python's
`"".split(":") == [""]`. -/
def splitComposite : List Char → List (List Char)
  | [] => [[]]
  | c :: rest =>
    match splitComposite rest with
    | [] => [[c]]
    | h :: t => if c = ':' then [] :: h :: t else (c :: h) :: t

/-- Modelled from the spec: `element(i, j) -> string` for the j-th
sub-element of the composite element at position i (sub-elements are
split on the composite separator ":"), default "" when out of range. -/
def Segment.element2 (s : Segment) (i j : Nat) : String :=
  ((splitComposite (s.element i).data).map (fun cs => String.mk cs)).getD j ""

/-- Modelled from the spec (4.2): `first(identifier, from_index)` —
first segment from `from_index` whose identifier matches, or the empty
sentinel segment when none matches. -/
def _first (data : List Segment) (name : String) (fromIdx : Nat) : Segment :=
  ((data.drop fromIdx).find? (fun s => s.segment_name == name)).getD Segment.empty

/-- Modelled from the spec (4.2): all segments whose identifier matches,
in document order. -/
def segments_by_name (name : String) (data : List Segment) : List Segment :=
  data.filter (fun s => s.segment_name == name)

/-- Modelled from the spec (4.2): every matching segment paired with its
position, in document order. -/
def segments_by_name_index (name : String) (data : List Segment) : List (Nat × Segment) :=
  data.enum.filter (fun p => p.2.segment_name == name)

/-- Modelled from the spec (4.2): `index_of(identifier, from_index)` —
first position ≥ from_index matching the identifier, or the sequence
length if absent (never a negative index). -/
def index_of_segment (data : List Segment) (name : String) (fromIdx : Nat) : Nat :=
  match (data.drop fromIdx).findIdx? (fun s => s.segment_name == name) with
  | some k => fromIdx + k
  | none => data.length

/-- Python slice `l[a:b]` on a segment list (empty when b ≤ a; both
bounds here are non-negative at every call site embedded below). -/
def pyslice (l : List Segment) (a b : Nat) : List Segment := (l.take b).drop a

/-- One (group code, six triples) adjustment-group record, the
dictionary built by `Remittance.populate_adjustment_groups` for one CAS
segment (remittance.py lines 510-534). -/
structure AdjGroup where
  adjustment_grp_cd : String
  adjustment_reason_cd_1 : String
  adjustment_amount_1 : String
  adjustment_quantity_1 : String
  adjustment_reason_cd_2 : String
  adjustment_amount_2 : String
  adjustment_quantity_2 : String
  adjustment_reason_cd_3 : String
  adjustment_amount_3 : String
  adjustment_quantity_3 : String
  adjustment_reason_cd_4 : String
  adjustment_amount_4 : String
  adjustment_quantity_4 : String
  adjustment_reason_cd_5 : String
  adjustment_amount_5 : String
  adjustment_quantity_5 : String
  adjustment_reason_cd_6 : String
  adjustment_amount_6 : String
  adjustment_quantity_6 : String
deriving DecidableEq

/-- The one dictionary built by `populate_adjustment_groups` for a CAS
segment (remittance.py 513-533): group code from element 1, then six
unconditional (reason, amount, quantity) triples at elements
(2,3,4) ... (17,18,19). -/
def adjRecord (cas : Segment) : AdjGroup :=
  ⟨cas.element 1,
   cas.element 2, cas.element 3, cas.element 4,
   cas.element 5, cas.element 6, cas.element 7,
   cas.element 8, cas.element 9, cas.element 10,
   cas.element 11, cas.element 12, cas.element 13,
   cas.element 14, cas.element 15, cas.element 16,
   cas.element 17, cas.element 18, cas.element 19⟩

/-- Embeds `Remittance.populate_adjustment_groups` (remittance.py
510-534): the singleton list holding the record above. -/
def populate_adjustment_groups (cas : Segment) : List AdjGroup :=
  [adjRecord cas]

/-- One provider-level-balance record, the dictionary built inside
`Remittance.populate_plb_loop` for one PLB segment (remittance.py
95-126).  Conditional fields are `Option String`: `none` embeds Python
`None`, `some v` a present string value. -/
structure PlbAdjustment where
  provider_identifier : String
  fiscal_period_date : String
  provider_adjustment_reason_cd_1 : Option String
  provider_adjustment_id_1 : Option String
  provider_adjustment_amt_1 : Option String
  provider_adjustment_reason_cd_2 : Option String
  provider_adjustment_id_2 : Option String
  provider_adjustment_amt_2 : Option String
  provider_adjustment_reason_cd_3 : Option String
  provider_adjustment_id_3 : Option String
  provider_adjustment_amt_3 : Option String
  provider_adjustment_reason_cd_4 : Option String
  provider_adjustment_id_4 : Option String
  provider_adjustment_amt_4 : Option String
  provider_adjustment_reason_cd_5 : Option String
  provider_adjustment_id_5 : Option String
  provider_adjustment_amt_5 : Option String
  provider_adjustment_reason_cd_6 : Option String
  provider_adjustment_id_6 : Option String
  provider_adjustment_amt_6 : Option String
deriving DecidableEq

/-- The per-PLB-segment record of `Remittance.populate_plb_loop`
(remittance.py 100-121): each field guarded by `segment_len() > t`. -/
def plbRecord (p : Segment) : PlbAdjustment :=
  ⟨p.element 1,
   p.element 2,
   if p.segment_len > 3 then some (p.element2 3 0) else none,
   if p.segment_len > 3 then some (p.element2 3 1) else none,
   if p.segment_len > 4 then some (p.element 4) else none,
   if p.segment_len > 5 then some (p.element2 5 0) else none,
   if p.segment_len > 5 then some (p.element2 5 1) else none,
   if p.segment_len > 6 then some (p.element 6) else none,
   if p.segment_len > 7 then some (p.element2 7 0) else none,
   if p.segment_len > 7 then some (p.element2 7 1) else none,
   if p.segment_len > 8 then some (p.element 8) else none,
   if p.segment_len > 9 then some (p.element2 9 0) else none,
   if p.segment_len > 9 then some (p.element2 9 1) else none,
   if p.segment_len > 10 then some (p.element 10) else none,
   if p.segment_len > 11 then some (p.element2 11 0) else none,
   if p.segment_len > 11 then some (p.element2 11 1) else none,
   if p.segment_len > 12 then some (p.element 12) else none,
   if p.segment_len > 13 then some (p.element2 13 0) else none,
   if p.segment_len > 13 then some (p.element2 13 1) else none,
   if p.segment_len > 14 then some (p.element 14) else none⟩

/-- Embeds `Remittance.populate_plb_loop` (remittance.py 95-126): the
Python `functools.reduce(+, [comprehension, []])` concatenates the
per-PLB comprehension with the empty list. -/
def populate_plb_loop (trx_summary_loop : List Segment) : List PlbAdjustment :=
  ((segments_by_name "PLB" trx_summary_loop).map plbRecord) ++ []

/-- One PER contact record, as built in `populate_payer_loop` and in
the claim loop (remittance.py 146-156, 272-282). -/
structure ContactInfo where
  contact_function_cd : String
  contact_name : String
  communication_number_qualifier1 : String
  contact_communication1 : String
  communication_number_qualifier2 : String
  contact_communication2 : String
  communication_number_qualifier3 : String
  contact_communication3 : String
  contact_inquiry_reference : String
deriving DecidableEq

/-- One REF additional-identification record (remittance.py 160-164). -/
structure RefIdInfo where
  id_qualifier_code : String
  id : String
  description : String
deriving DecidableEq

/-- The payer record of `Remittance.populate_payer_loop`
(remittance.py 130-167). -/
structure PayerInfo where
  entity_identifier_code : String
  payer_name : String
  id_code_qualifier : String
  payer_identifier : String
  entity_relationship_code : String
  payer_address_line_1 : String
  payer_address_line_2 : String
  payer_city_name : String
  payer_state_code : String
  payer_postal_zone_or_zip_code : String
  country_code : String
  location_qualifier : String
  country_subdivision_code : String
  payer_contact_info : List ContactInfo
  payer_additional_identification : List RefIdInfo
deriving DecidableEq

/-- Embeds `Remittance.populate_payer_loop` (remittance.py 130-167). -/
def populate_payer_loop (payer_loop : List Segment) : PayerInfo :=
  ⟨(_first payer_loop "N1" 0).element 1,
   (_first payer_loop "N1" 0).element 2,
   (_first payer_loop "N1" 0).element 3,
   (_first payer_loop "N1" 0).element 4,
   (_first payer_loop "N1" 0).element 5,
   (_first payer_loop "N3" 0).element 1,
   (_first payer_loop "N3" 0).element 2,
   (_first payer_loop "N4" 0).element 1,
   (_first payer_loop "N4" 0).element 2,
   (_first payer_loop "N4" 0).element 3,
   (_first payer_loop "N4" 0).element 4,
   (_first payer_loop "N4" 0).element 5,
   (_first payer_loop "N4" 0).element 7,
   (segments_by_name "PER" payer_loop).map
     (fun c => ⟨c.element 1, c.element 2, c.element 3, c.element 4, c.element 5,
                c.element 6, c.element 7, c.element 8, c.element 9⟩),
   (segments_by_name "REF" payer_loop).map
     (fun c => ⟨c.element 1, c.element 2, c.element 3⟩)⟩

/-- The payee record of `Remittance.populate_payee_loop`
(remittance.py 169-196). -/
structure PayeeInfo where
  entity_identifier_code : String
  payee_name : String
  id_code_qualifier : String
  payee_identifier : String
  entity_relationship_code : String
  payee_address_line_1 : String
  payee_address_line_2 : String
  payee_city_name : String
  payee_state_code : String
  payee_postal_zone_or_zip_code : String
  country_code : String
  location_qualifier : String
  country_subdivision_code : String
  payee_additional_identification : List RefIdInfo
  delivery_report_transmission_code : String
  delivery_name : String
  delivery_communication_number : String
  delivery_reference_identifier : String
deriving DecidableEq

/-- Embeds `Remittance.populate_payee_loop` (remittance.py 169-196). -/
def populate_payee_loop (payee_loop : List Segment) : PayeeInfo :=
  ⟨(_first payee_loop "N1" 0).element 1,
   (_first payee_loop "N1" 0).element 2,
   (_first payee_loop "N1" 0).element 3,
   (_first payee_loop "N1" 0).element 4,
   (_first payee_loop "N1" 0).element 5,
   (_first payee_loop "N3" 0).element 1,
   (_first payee_loop "N3" 0).element 2,
   (_first payee_loop "N4" 0).element 1,
   (_first payee_loop "N4" 0).element 2,
   (_first payee_loop "N4" 0).element 3,
   (_first payee_loop "N4" 0).element 4,
   (_first payee_loop "N4" 0).element 5,
   (_first payee_loop "N4" 0).element 7,
   (segments_by_name "REF" payee_loop).map
     (fun c => ⟨c.element 1, c.element 2, c.element 3⟩),
   (_first payee_loop "RDM" 0).element 1,
   (_first payee_loop "RDM" 0).element 2,
   (_first payee_loop "RDM" 0).element 3,
   (_first payee_loop "RDM" 0).element 4⟩

/-- DTM record shape used for payment dates, claim dates and claim-line
dates (remittance.py 200-204, 395-403, 440-444). -/
structure DtmInfo where
  date_code : String
  date : String
  time : String
deriving DecidableEq

/-- BPR payment sub-record of `populate_trx_loop` (remittance.py 205-223). -/
structure BprInfo where
  transaction_handling_code : String
  total_actual_provider_payment_amt : String
  creditor_debit_flag_code : String
  payment_method_code : String
  payment_format_code : String
  sender_dfiid_number_qualifier : String
  sender_dfi_identifier : String
  sender_account_number_qualifier : String
  sender_bank_acct_number : String
  payer_identifier : String
  payer_originating_co_supplemental_code : String
  receiver_dfiid_number_qualifier : String
  receiver_or_provider_bank_id_number : String
  receiver_acct_number_qualifier : String
  receiver_or_provider_account_number : String
  check_issue_or_eft_effective_date : String
  business_function_code : String
deriving DecidableEq

/-- TRN trace sub-record of `populate_trx_loop` (remittance.py 224-229). -/
structure TrnInfo where
  trace_type_code : String
  check_or_eft_trace_number : String
  trace_payer_identifier : String
  trace_payer_originating_co_supplemental_code : String
deriving DecidableEq

/-- The payment record of `Remittance.populate_trx_loop`
(remittance.py 198-230). -/
structure TrxHeaderInfo where
  dtm : DtmInfo
  bpr : BprInfo
  trn : TrnInfo
deriving DecidableEq

/-- Embeds `Remittance.populate_trx_loop` (remittance.py 198-230). -/
def populate_trx_loop (trx_header_loop : List Segment) : TrxHeaderInfo :=
  ⟨⟨(_first trx_header_loop "DTM" 0).element 1,
    (_first trx_header_loop "DTM" 0).element 2,
    (_first trx_header_loop "DTM" 0).element 3⟩,
   ⟨(_first trx_header_loop "BPR" 0).element 1,
    (_first trx_header_loop "BPR" 0).element 2,
    (_first trx_header_loop "BPR" 0).element 3,
    (_first trx_header_loop "BPR" 0).element 4,
    (_first trx_header_loop "BPR" 0).element 5,
    (_first trx_header_loop "BPR" 0).element 6,
    (_first trx_header_loop "BPR" 0).element 7,
    (_first trx_header_loop "BPR" 0).element 8,
    (_first trx_header_loop "BPR" 0).element 9,
    (_first trx_header_loop "BPR" 0).element 10,
    (_first trx_header_loop "BPR" 0).element 11,
    (_first trx_header_loop "BPR" 0).element 12,
    (_first trx_header_loop "BPR" 0).element 13,
    (_first trx_header_loop "BPR" 0).element 14,
    (_first trx_header_loop "BPR" 0).element 15,
    (_first trx_header_loop "BPR" 0).element 16,
    (_first trx_header_loop "BPR" 0).element 17⟩,
   ⟨(_first trx_header_loop "TRN" 0).element 1,
    (_first trx_header_loop "TRN" 0).element 2,
    (_first trx_header_loop "TRN" 0).element 3,
    (_first trx_header_loop "TRN" 0).element 4⟩⟩

/-- TS3 fixed-position statistics sub-record of `populate_header_loop`
(remittance.py 44-69). -/
structure Ts3Info where
  provider_identifier : String
  facility_code_value : String
  fiscal_period_date : String
  total_claim_count : String
  total_claim_change_amount : String
  total_covered_charge_amount : String
  total_noncovered_charge_amount : String
  total_denied_charge_amount : String
  total_provider_amount : String
  total_interest_amount : String
  total_contractual_adjustment_amount : String
  total_gramm_rudman_reduction_amount : String
  total_msp_payer_amount : String
  total_blood_deductible_amount : String
  total_non_lab_charge_amount : String
  total_coinsurance_amount : String
  total_hcpcs_reported_charge_amount : String
  total_hcpcs_payable_amount : String
  total_deductible_amount : String
  total_professional_component_amount : String
  total_msp_patient_liability_met_amount : String
  total_patient_reimbursement_amount : String
  total_pip_claim_count : String
  total_pip_adjustment_amount : String
deriving DecidableEq

/-- TS2 fixed-position statistics sub-record of `populate_header_loop`
(remittance.py 71-91). -/
structure Ts2Info where
  total_drg_amount : String
  total_federal_specific_amount : String
  total_hospital_specific_amount : String
  total_disproportionate_amount : String
  total_capital_amount : String
  total_indirect_medical_education_amount : String
  total_outlier_day_count : String
  total_day_outlier_amount : String
  total_cost_outlier_amount : String
  average_drg_length_of_stay : String
  total_discharge_count : String
  total_cost_report_day_count : String
  total_covered_day_count : String
  total_noncovered_day_count : String
  total_msp_pass_through_amount : String
  average_drg_weight : String
  total_pps_capital_fsp_drg_amount : String
  total_psp_capital_hsp_drg_amount : String
  total_pps_dsh_drg_amount : String
deriving DecidableEq

/-- The header record of `Remittance.populate_header_loop`
(remittance.py 39-92). -/
structure HeaderInfo where
  assigned_num : String
  ts3 : Ts3Info
  ts2 : Ts2Info
deriving DecidableEq

/-- Embeds `Remittance.populate_header_loop` (remittance.py 39-92). -/
def populate_header_loop (header_number_loop : List Segment) : HeaderInfo :=
  ⟨(_first header_number_loop "LX" 0).element 1,
   ⟨(_first header_number_loop "TS3" 0).element 1,
    (_first header_number_loop "TS3" 0).element 2,
    (_first header_number_loop "TS3" 0).element 3,
    (_first header_number_loop "TS3" 0).element 4,
    (_first header_number_loop "TS3" 0).element 5,
    (_first header_number_loop "TS3" 0).element 6,
    (_first header_number_loop "TS3" 0).element 7,
    (_first header_number_loop "TS3" 0).element 8,
    (_first header_number_loop "TS3" 0).element 9,
    (_first header_number_loop "TS3" 0).element 10,
    (_first header_number_loop "TS3" 0).element 11,
    (_first header_number_loop "TS3" 0).element 12,
    (_first header_number_loop "TS3" 0).element 13,
    (_first header_number_loop "TS3" 0).element 14,
    (_first header_number_loop "TS3" 0).element 15,
    (_first header_number_loop "TS3" 0).element 16,
    (_first header_number_loop "TS3" 0).element 17,
    (_first header_number_loop "TS3" 0).element 18,
    (_first header_number_loop "TS3" 0).element 19,
    (_first header_number_loop "TS3" 0).element 20,
    (_first header_number_loop "TS3" 0).element 21,
    (_first header_number_loop "TS3" 0).element 22,
    (_first header_number_loop "TS3" 0).element 23,
    (_first header_number_loop "TS3" 0).element 24⟩,
   ⟨(_first header_number_loop "TS2" 0).element 1,
    (_first header_number_loop "TS2" 0).element 2,
    (_first header_number_loop "TS2" 0).element 3,
    (_first header_number_loop "TS2" 0).element 4,
    (_first header_number_loop "TS2" 0).element 5,
    (_first header_number_loop "TS2" 0).element 6,
    (_first header_number_loop "TS2" 0).element 7,
    (_first header_number_loop "TS2" 0).element 8,
    (_first header_number_loop "TS2" 0).element 9,
    (_first header_number_loop "TS2" 0).element 10,
    (_first header_number_loop "TS2" 0).element 11,
    (_first header_number_loop "TS2" 0).element 12,
    (_first header_number_loop "TS2" 0).element 13,
    (_first header_number_loop "TS2" 0).element 14,
    (_first header_number_loop "TS2" 0).element 15,
    (_first header_number_loop "TS2" 0).element 16,
    (_first header_number_loop "TS2" 0).element 17,
    (_first header_number_loop "TS2" 0).element 18,
    (_first header_number_loop "TS2" 0).element 19⟩⟩

/-- CLP claim-summary sub-record (remittance.py 242-257). -/
structure ClpInfo where
  patient_control_number : String
  claim_status_code : String
  total_claim_charge_amount : String
  claim_payment_amount : String
  patient_responsibility_amount : String
  claim_filing_indicator_code : String
  payer_claim_control_number : String
  facility_code_value : String
  claim_frequency_code : String
  patient_status_code : String
  drg_code : String
  drg_weight : String
  discharge_fraction : String
  yes_no_condition_or_response_code : String
deriving DecidableEq

/-- NM1 name record, shared by `first_nm1_patient` and
`_populate_names` (remittance.py 258-269, 406-422). -/
structure Nm1Info where
  entity_identifier_code : String
  entity_type_qualifier : String
  last_name_or_organization : String
  first_name : String
  middle_name : String
  name_prefix : String
  name_suffix : String
  id_code_qualifier : String
  identifier : String
  entity_relationship_code : String
deriving DecidableEq

/-- MIA inpatient-adjudication sub-record (remittance.py 288-313). -/
structure MiaInfo where
  covered_days_or_visits_count : String
  pps_operation_outlier_amount : String
  lifetime_psychiatric_days_count : String
  claim_drg_amount : String
  claim_payment_remark_code : String
  claim_dsh_amount : String
  claim_msp_pass_thru_amount : String
  claim_pps_capital_amount : String
  pps_capital_fsp_drg_amount : String
  pps_capital_hsp_drg_amount : String
  pps_capital_dsh_drg_amount : String
  old_capital_amount : String
  pps_capital_ime_amount : String
  pps_oper_hsp_spec_drg_amount : String
  cost_report_day_count : String
  pps_oper_fsp_spec_drg_amount : String
  claim_pps_outlier_amount : String
  claim_indirect_teaching : String
  non_pay_prof_comp_amount : String
  inpatient_claim_payment_remark_code_1 : String
  inpatient_claim_payment_remark_code_2 : String
  inpatient_claim_payment_remark_code_3 : String
  inpatient_claim_payment_remark_code_4 : String
  pps_capital_exception_amount : String
deriving DecidableEq

/-- MOA outpatient-adjudication sub-record (remittance.py 314-324). -/
structure MoaInfo where
  reimbursement_rate : String
  claim_hcpcs_payable_amount : String
  outpatient_claim_payment_remark_code_1 : String
  outpatient_claim_payment_remark_code_2 : String
  outpatient_claim_payment_remark_code_3 : String
  outpatient_claim_payment_remark_code_4 : String
  outpatient_claim_payment_remark_code_5 : String
  claim_esrd_payment_amount : String
  non_payable_professional_comp_amount : String
deriving DecidableEq

/-- Claim-level AMT supplemental-amount record (remittance.py 336-341). -/
structure AmtInfo where
  amount_qualifier_code : String
  amt : String
  credit_debit_flag_code : String
deriving DecidableEq

/-- Claim-level QTY supplemental-quantity record (remittance.py 347-352). -/
structure QtyInfo where
  quantity_qualifier_code : String
  qty : String
  composite_unit_of_measure : String
deriving DecidableEq

/-- SVC line-detail sub-record of `populate_claim_line`
(remittance.py 431-439). -/
structure SvcDetails where
  prcdr_cd : String
  chrg_amt : String
  paid_amt : String
  rev_cd : String
  units : String
  original_prcdr_cd : String
  original_units_of_service_count : String
deriving DecidableEq

/-- Line-level AMT supplemental-amount record (remittance.py 446-450);
its first key is `amt_qualifier_cd`, unlike the claim-level record. -/
structure LineAmtInfo where
  amt_qualifier_cd : String
  amt : String
  credit_debit_flag_code : String
deriving DecidableEq

/-- Line-level supplemental-quantity record (remittance.py 456-460);
its first key is `quantity_qualifier`. -/
structure LineQtyInfo where
  quantity_qualifier : String
  qty : String
  composite_unit_of_measure : String
deriving DecidableEq

/-- Line-level LQ remark record (remittance.py 466). -/
structure LqInfo where
  qualifier_cd : String
  remark_cd : String
deriving DecidableEq

/-- Line-level REF related-identification record (remittance.py 483-487);
its first key is `id_code_qualifier`. -/
structure LineRefInfo where
  id_code_qualifier : String
  id : String
  description : String
deriving DecidableEq

/-- One claim-line record, the dictionary built by
`Remittance.populate_claim_line` (remittance.py 429-492). -/
structure ClaimLine where
  claim_line_details : SvcDetails
  claim_line_dates : DtmInfo
  claim_line_supplemental_amount : List LineAmtInfo
  claim_line_supplemental_quantity : List LineQtyInfo
  claim_line_remarks : List LqInfo
  claim_line_adjustments : List AdjGroup
  claim_line_related_identifications : List LineRefInfo
deriving DecidableEq

/-- Embeds `Remittance._populate_names` (remittance.py 406-422). -/
def _populate_names (loop : List Segment) : List Nm1Info :=
  (loop.filter (fun x => x.segment_name == "NM1")).map
    (fun x => ⟨x.element 1, x.element 2, x.element 3, x.element 4, x.element 5,
               x.element 6, x.element 7, x.element 8, x.element 9, x.element 10⟩)

/-- Embeds `Remittance.populate_claim_line` (remittance.py 429-492):
`clm_loop` is the claim loop the method reads through `self`, `svc` the
SVC segment, `idx` its index in `clm_loop`, `svc_end_idx` the exclusive
end of the line's slice.  The line-level CAS reduce starts from `[]`. -/
def populate_claim_line (clm_loop : List Segment) (svc : Segment)
    (idx svc_end_idx : Nat) : ClaimLine :=
  ⟨⟨svc.element 1, svc.element 2, svc.element 3, svc.element 4,
    svc.element 5, svc.element 6, svc.element 7⟩,
   ⟨(_first clm_loop "DTM" idx).element 1,
    (_first clm_loop "DTM" idx).element 2,
    (_first clm_loop "DTM" idx).element 3⟩,
   (segments_by_name "AMT" (pyslice clm_loop idx svc_end_idx)).map
     (fun a => ⟨a.element 1, a.element 2, a.element 3⟩),
   (segments_by_name "AMT" (pyslice clm_loop idx svc_end_idx)).map
     (fun a => ⟨a.element 1, a.element 2, a.element 3⟩),
   (segments_by_name "LQ" (pyslice clm_loop idx svc_end_idx)).map
     (fun x => ⟨x.element 1, x.element 2⟩),
   ((segments_by_name "CAS" (pyslice clm_loop idx svc_end_idx)).map
      populate_adjustment_groups).foldl (· ++ ·) [],
   (segments_by_name "REF" (pyslice clm_loop idx svc_end_idx)).map
     (fun x => ⟨x.element 1, x.element 2, x.element 3⟩)⟩

/-- The claim record of `Remittance.populate_claim_loop`
(remittance.py 232-404). -/
structure ClmInfo where
  clp : ClpInfo
  first_nm1_patient : Nm1Info
  claim_names : List Nm1Info
  claim_contacts : List ContactInfo
  mia : MiaInfo
  moa : MoaInfo
  claim_related_identifications : List RefIdInfo
  claim_supplemental_amount : List AmtInfo
  claim_supplemental_quantity : List QtyInfo
  claim_adjustments : List AdjGroup
  claim_lines : List ClaimLine
  claim_dates : List DtmInfo
deriving DecidableEq

/-- The `end_clp_index` bound of `populate_claim_loop` (remittance.py
233-240): the first index into the tail `clm_loop[1:]` holding another
CLP, or `len(clm_loop)` when there is none. -/
def end_clp_index (clm_loop : List Segment) : Nat :=
  match (clm_loop.drop 1).findIdx? (fun s => s.segment_name == "CLP") with
  | some i => i
  | none => clm_loop.length

/-- The exclusive end of the claim-level CAS slice (remittance.py
365-377).  In the source it is `min` over `filter(x >= 0,
[index_of_segment(clm_loop, "SVC"), len(clm_loop) - 1])`; with the
spec's index_of (which is always ≥ 0) the filter only drops
`len(clm_loop) - 1` when the loop is empty, in which case
`index_of_segment` is 0 and truncated Nat subtraction gives the same
minimum 0, so `min` of the two Nat values is an exact embedding. -/
def claim_cas_end (clm_loop : List Segment) : Nat :=
  min (index_of_segment clm_loop "SVC" 0) (clm_loop.length - 1)

/-- Embeds `Remittance.populate_claim_loop` (remittance.py 232-404).
The claim-level CAS reduce starts from `[]`; `claim_lines` maps
`populate_claim_line` over the indexed SVC occurrences with exclusive
end `min(index_of_segment(clm_loop, "SVC", i + 1), len(clm_loop) - 1)`. -/
def populate_claim_loop (clm_loop : List Segment) : ClmInfo :=
  ⟨⟨(_first clm_loop "CLP" 0).element 1,
    (_first clm_loop "CLP" 0).element 2,
    (_first clm_loop "CLP" 0).element 3,
    (_first clm_loop "CLP" 0).element 4,
    (_first clm_loop "CLP" 0).element 5,
    (_first clm_loop "CLP" 0).element 6,
    (_first clm_loop "CLP" 0).element 7,
    (_first clm_loop "CLP" 0).element 8,
    (_first clm_loop "CLP" 0).element 9,
    (_first clm_loop "CLP" 0).element 10,
    (_first clm_loop "CLP" 0).element 11,
    (_first clm_loop "CLP" 0).element 12,
    (_first clm_loop "CLP" 0).element 13,
    (_first clm_loop "CLP" 0).element 14⟩,
   ⟨(_first clm_loop "NM1" 0).element 1,
    (_first clm_loop "NM1" 0).element 2,
    (_first clm_loop "NM1" 0).element 3,
    (_first clm_loop "NM1" 0).element 4,
    (_first clm_loop "NM1" 0).element 5,
    (_first clm_loop "NM1" 0).element 6,
    (_first clm_loop "NM1" 0).element 7,
    (_first clm_loop "NM1" 0).element 8,
    (_first clm_loop "NM1" 0).element 9,
    (_first clm_loop "NM1" 0).element 10⟩,
   _populate_names (pyslice clm_loop 0 (end_clp_index clm_loop)),
   (segments_by_name "PER"
      (pyslice clm_loop 0 (index_of_segment clm_loop "SVC" 0))).map
     (fun c => ⟨c.element 1, c.element 2, c.element 3, c.element 4, c.element 5,
                c.element 6, c.element 7, c.element 8, c.element 9⟩),
   ⟨(_first clm_loop "MIA" 0).element 1,
    (_first clm_loop "MIA" 0).element 2,
    (_first clm_loop "MIA" 0).element 3,
    (_first clm_loop "MIA" 0).element 4,
    (_first clm_loop "MIA" 0).element 5,
    (_first clm_loop "MIA" 0).element 6,
    (_first clm_loop "MIA" 0).element 7,
    (_first clm_loop "MIA" 0).element 8,
    (_first clm_loop "MIA" 0).element 9,
    (_first clm_loop "MIA" 0).element 10,
    (_first clm_loop "MIA" 0).element 11,
    (_first clm_loop "MIA" 0).element 12,
    (_first clm_loop "MIA" 0).element 13,
    (_first clm_loop "MIA" 0).element 14,
    (_first clm_loop "MIA" 0).element 15,
    (_first clm_loop "MIA" 0).element 16,
    (_first clm_loop "MIA" 0).element 17,
    (_first clm_loop "MIA" 0).element 18,
    (_first clm_loop "MIA" 0).element 19,
    (_first clm_loop "MIA" 0).element 20,
    (_first clm_loop "MIA" 0).element 21,
    (_first clm_loop "MIA" 0).element 22,
    (_first clm_loop "MIA" 0).element 23,
    (_first clm_loop "MIA" 0).element 24⟩,
   ⟨(_first clm_loop "MOA" 0).element 1,
    (_first clm_loop "MOA" 0).element 2,
    (_first clm_loop "MOA" 0).element 3,
    (_first clm_loop "MOA" 0).element 4,
    (_first clm_loop "MOA" 0).element 5,
    (_first clm_loop "MOA" 0).element 6,
    (_first clm_loop "MOA" 0).element 7,
    (_first clm_loop "MOA" 0).element 8,
    (_first clm_loop "MOA" 0).element 9⟩,
   (segments_by_name "REF"
      (pyslice clm_loop 0 (index_of_segment clm_loop "SVC" 0))).map
     (fun x => ⟨x.element 1, x.element 2, x.element 3⟩),
   (segments_by_name "AMT"
      (pyslice clm_loop 0 (index_of_segment clm_loop "SVC" 0))).map
     (fun x => ⟨x.element 1, x.element 2, x.element 3⟩),
   (segments_by_name "QTY"
      (pyslice clm_loop 0 (index_of_segment clm_loop "SVC" 0))).map
     (fun x => ⟨x.element 1, x.element 2, x.element 3⟩),
   ((segments_by_name "CAS"
       (pyslice clm_loop 1 (claim_cas_end clm_loop))).map
      populate_adjustment_groups).foldl (· ++ ·) [],
   (segments_by_name_index "SVC" clm_loop).map
     (fun p => populate_claim_line clm_loop p.2 p.1
       (min (index_of_segment clm_loop "SVC" (p.1 + 1)) (clm_loop.length - 1))),
   (clm_loop.filter (fun x => x.segment_name == "DTM")).map
     (fun x => ⟨x.element 1, x.element 2, x.element 3⟩)⟩

/-- A Remittance is constructed from the six pre-partitioned loops
(remittance.py 13-28); `build` (30-36) computes the six sub-records
from them, embedded below as functions of the loops. -/
structure Remittance where
  trx_header_loop : List Segment
  payer_loop : List Segment
  payee_loop : List Segment
  clm_loop : List Segment
  trx_summary_loop : List Segment
  header_number_loop : List Segment

/-- One value of the top-level mapping returned by
`Remittance.to_json`; each constructor wraps one sub-record type. -/
inductive RemSection where
  | payment : TrxHeaderInfo → RemSection
  | payer : PayerInfo → RemSection
  | payee : PayeeInfo → RemSection
  | claim : ClmInfo → RemSection
  | provider_adjustments : List PlbAdjustment → RemSection
  | header_info : HeaderInfo → RemSection

/-- Embeds `Remittance.to_json` (remittance.py 536-544): the Python
merge `{**{"payment": ...}, ..., **{"header_info": ...}}` of six
singleton dictionaries with pairwise-distinct keys is the association
list of those six pairs, in that order. -/
def Remittance.to_json (r : Remittance) : List (String × RemSection) :=
  [("payment", .payment (populate_trx_loop r.trx_header_loop)),
   ("payer", .payer (populate_payer_loop r.payer_loop)),
   ("payee", .payee (populate_payee_loop r.payee_loop)),
   ("claim", .claim (populate_claim_loop r.clm_loop)),
   ("provider_adjustments", .provider_adjustments (populate_plb_loop r.trx_summary_loop)),
   ("header_info", .header_info (populate_header_loop r.header_number_loop))]

/-- A Transaction as built by `Transaction.__init__`
(transaction.py 44-64): the segment list plus the three ST header
fields, `Option String` embedding the Python `None` initialisation. -/
structure Transaction where
  data : List Segment
  transaction_set_identifier_code : Option String
  transaction_set_control_number : Option String
  implementation_convention_reference : Option String
deriving DecidableEq

/-- Embeds `Transaction._parse_st_segment` (transaction.py 58-64): the
for-loop with break reads elements 1-3 of the first ST segment; when no
segment is named ST the three fields keep their `None` initialisation. -/
def parse_st_segment (segments : List Segment) :
    Option String × Option String × Option String :=
  match segments.find? (fun s => s.segment_name == "ST") with
  | some st => (some (st.element 1), some (st.element 2), some (st.element 3))
  | none => (none, none, none)

/-- Embeds `Transaction.__init__` (transaction.py 45-56): stores the
segments and the fields produced by `_parse_st_segment`. -/
def mkTransaction (segments : List Segment) : Transaction :=
  ⟨segments,
   (parse_st_segment segments).1,
   (parse_st_segment segments).2.1,
   (parse_st_segment segments).2.2⟩

/-! Helper lemmas about the navigation primitives. -/

/-- Every element access on the sentinel empty segment yields "". -/
lemma empty_element (i : Nat) : Segment.empty.element i = "" := by
  cases i <;> rfl

/-- When no segment of the sequence carries the identifier, `_first`
returns the sentinel empty segment. -/
lemma first_eq_empty {loop : List Segment} {nm : String}
    (h : ∀ s ∈ loop, ¬ s.segment_name = nm) : _first loop nm 0 = Segment.empty := by
  have hf : loop.find? (fun s => s.segment_name == nm) = none := by
    rw [List.find?_eq_none]
    intro x hx
    simp [h x hx]
  simp [_first, hf]

/-- When no segment of the sequence carries the identifier,
`segments_by_name` returns the empty list. -/
lemma segments_by_name_eq_nil {loop : List Segment} {nm : String}
    (h : ∀ s ∈ loop, ¬ s.segment_name = nm) : segments_by_name nm loop = [] := by
  rw [segments_by_name, List.filter_eq_nil_iff]
  intro x hx
  simp [h x hx]

/-- When no segment of the sequence carries the identifier,
`index_of_segment` falls back to the sequence length. -/
lemma index_of_segment_eq_length {loop : List Segment} {nm : String} (fromIdx : Nat)
    (h : ∀ s ∈ loop, ¬ s.segment_name = nm) :
    index_of_segment loop nm fromIdx = loop.length := by
  have hf : (loop.drop fromIdx).findIdx? (fun s => s.segment_name == nm) = none := by
    rw [List.findIdx?_eq_none_iff]
    intro x hx
    simp [h x (List.mem_of_mem_drop hx)]
  simp [index_of_segment, hf]

/-- Element access past the raw token count defaults to "". -/
lemma element_default (s : Segment) (i : Nat) (h : s.segment_len ≤ i) :
    s.element i = "" :=
  List.getD_eq_default _ _ h

/-- The positions of a segment range that hold a given identifier, in
document order. -/
def name_positions (nm : String) (L : List Segment) : List Nat :=
  (List.range L.length).filter (fun i => (L.getD i Segment.empty).segment_name == nm)

/-- `enumFrom`-with-filter is the map over the filtered index range. -/
lemma enumFrom_filter_eq {α : Type} (d : α) (q : α → Bool) :
    ∀ (L : List α) (n : Nat),
      (List.enumFrom n L).filter (fun p => q p.2) =
        ((List.range L.length).filter (fun i => q (L.getD i d))).map
          (fun i => (n + i, L.getD i d))
  | [], n => by simp
  | a :: T, n => by
    have ih := enumFrom_filter_eq d q T (n + 1)
    rw [List.enumFrom_cons, List.filter_cons, List.length_cons,
      List.range_succ_eq_map, List.filter_cons, ih]
    simp only [List.getD_cons_zero, List.getD_cons_succ, List.filter_map,
      Function.comp_def, List.map_map, List.map_cons, Nat.add_zero]
    cases hq : q a
    · simp only [Bool.false_eq_true, if_false]
      rw [List.map_map]
      apply List.map_congr_left
      intro i _
      simp only [Function.comp_apply, List.getD_cons_succ]
      congr 1
      omega
    · simp only [if_true]
      rw [List.map_cons, List.map_map]
      simp only [List.getD_cons_zero, Nat.add_zero]
      refine congrArg₂ List.cons rfl ?_
      apply List.map_congr_left
      intro i _
      simp only [Function.comp_apply, List.getD_cons_succ]
      congr 1
      omega

/-- `segments_by_name_index` lists exactly the matching positions of
the sequence, each paired with the segment stored there. -/
lemma segments_by_name_index_eq (nm : String) (L : List Segment) :
    segments_by_name_index nm L =
      (name_positions nm L).map (fun i => (i, L.getD i Segment.empty)) := by
  have h := enumFrom_filter_eq Segment.empty
    (fun s => s.segment_name == nm) L 0
  simpa [segments_by_name_index, List.enum, name_positions] using h

/-- Filtering a `take`-prefix is the map over the bounded filtered
index range. -/
lemma take_filter_eq {α : Type} (d : α) (q : α → Bool) :
    ∀ (T : List α) (b : Nat),
      (T.take b).filter q =
        ((List.range T.length).filter
           (fun i => decide (i < b) && q (T.getD i d))).map (fun i => T.getD i d)
  | [], b => by simp
  | a :: T, 0 => by
    simp
  | a :: T, b + 1 => by
    have ih := take_filter_eq d q T b
    rw [List.take_succ_cons, List.filter_cons, ih, List.length_cons,
      List.range_succ_eq_map, List.filter_cons]
    cases hq : q a
    · simp only [hq, Bool.false_eq_true, if_false, List.getD_cons_zero,
        List.getD_cons_succ, List.filter_map, Function.comp_def,
        Nat.zero_lt_succ, decide_True, Bool.true_and, Bool.and_false,
        Nat.succ_lt_succ_iff, List.map_map]
    · simp only [hq, if_true, List.getD_cons_zero, List.getD_cons_succ,
        List.filter_map, Function.comp_def, Nat.zero_lt_succ, decide_True,
        Bool.true_and, Bool.and_true, Nat.succ_lt_succ_iff, List.map_cons,
        List.map_map]

/-- Filtering the Python slice `L[1:b]` is the map over the index range
restricted to `1 ≤ i < b`. -/
lemma pyslice_one_filter (q : Segment → Bool) :
    ∀ (L : List Segment) (b : Nat),
      (pyslice L 1 b).filter q =
        ((List.range L.length).filter
           (fun i => decide (1 ≤ i) && decide (i < b) &&
             q (L.getD i Segment.empty))).map (fun i => L.getD i Segment.empty)
  | [], b => by simp [pyslice]
  | a :: T, 0 => by
    simp [pyslice]
  | a :: T, b + 1 => by
    have h := take_filter_eq Segment.empty q T b
    rw [pyslice, List.take_succ_cons, List.drop_one, List.tail_cons, h, List.length_cons,
      List.range_succ_eq_map, List.filter_cons]
    simp only [List.getD_cons_zero, List.getD_cons_succ, List.filter_map,
      Function.comp_def, Nat.succ_lt_succ_iff, List.map_map,
      Nat.not_succ_le_zero, decide_False, Bool.false_and, Bool.false_eq_true, if_false,
      Nat.succ_le_succ_iff, Nat.zero_le, decide_True, Bool.true_and,
      Nat.le_zero, Nat.one_le_iff_ne_zero, Nat.succ_ne_zero, ne_eq,
      not_false_eq_true]

/-- The source's `functools.reduce(+, [populate_adjustment_groups(c)
for c in l], init)` flattens singleton lists: it is `init` followed by
one `adjRecord` per CAS segment. -/
lemma foldl_adjustment_groups :
    ∀ (l : List Segment) (init : List AdjGroup),
      ((l.map populate_adjustment_groups).foldl (· ++ ·) init) = init ++ l.map adjRecord
  | [], init => by simp
  | a :: l, init => by
    rw [List.map_cons, List.foldl_cons, foldl_adjustment_groups l (init ++ populate_adjustment_groups a)]
    simp [populate_adjustment_groups]

/-- `find?` returns the entry at the first matching position. -/
lemma find?_eq_getD (p : Segment → Bool) :
    ∀ (L : List Segment) (i : Nat), i < L.length →
      p (L.getD i Segment.empty) = true →
      (∀ j, j < i → p (L.getD j Segment.empty) = false) →
      L.find? p = some (L.getD i Segment.empty)
  | [], i, hi, _, _ => absurd hi (by simp)
  | a :: T, 0, _, hp, _ => by
    rw [List.getD_cons_zero] at hp ⊢
    exact List.find?_cons_of_pos _ hp
  | a :: T, i + 1, hi, hp, hfirst => by
    have ha : p a = false := by
      have := hfirst 0 (Nat.succ_pos i)
      simpa using this
    rw [List.getD_cons_succ] at hp ⊢
    rw [List.find?_cons_of_neg _ (by simp [ha])]
    exact find?_eq_getD p T i (by simpa using hi) hp
      (fun j hj => by simpa using hfirst (j + 1) (Nat.succ_lt_succ hj))

/-! Concrete example segments used to exercise the definitions. -/

/-- A CAS segment holding only the group code and the first triple. -/
def exCAS : Segment := ⟨["CAS", "CO", "45", "10", "1"]⟩

/-- A PLB segment long enough for exactly two adjustment groups
(raw token count 7). -/
def exPLB : Segment := ⟨["PLB", "pid", "fp", "CO:ref1", "10", "CV:ref2", "20"]⟩

/-- A CLP claim-summary segment. -/
def exCLP : Segment := ⟨["CLP", "pcn", "1", "100", "80", "20", "MC"]⟩

/-- A first SVC service segment. -/
def exSVC : Segment := ⟨["SVC", "HC:99213", "100", "80"]⟩

/-- A second SVC service segment. -/
def exSVC2 : Segment := ⟨["SVC", "HC:99214", "50", "40"]⟩

/-- A DTM date segment. -/
def exDTM : Segment := ⟨["DTM", "472", "20240101"]⟩

/-- A short NM1 segment (element count 2). -/
def exNM1 : Segment := ⟨["NM1", "QC", "1"]⟩

/-- A claim loop whose single (hence last) SVC is followed by a CAS
that is the loop's final segment. -/
def cexLoop : List Segment := [exCLP, exSVC, exCAS]

/-- A claim loop with no SVC whose only CAS is the final segment. -/
def cex7Loop : List Segment := [exCLP, exCAS]

/-- A claim loop with one CLP and two SVC service lines. -/
def exLoop2 : List Segment := [exCLP, exSVC, exDTM, exCAS, exSVC2, exDTM]

/-- A claim loop with no SVC and two CAS segments not in final
position. -/
def exAdjLoop : List Segment := [exCLP, exCAS, exCAS, exDTM]

/-- An ST transaction-set header segment. -/
def exST : Segment := ⟨["ST", "835", "0001", "005010X221A1"]⟩

/-- A second, different ST segment. -/
def exST2 : Segment := ⟨["ST", "837", "0002", "005010X222A1"]⟩

/-- A BPR segment (not an ST). -/
def exBPR : Segment := ⟨["BPR", "I", "100"]⟩

/-- A transaction-set sequence whose first ST sits at position 1 and
which carries a second ST at position 2. -/
def exMultiST : List Segment := [exBPR, exST, exST2]

/-! Claim theorems. -/

/-- C2.  For every CAS segment, populate_adjustment_groups always
emits the single record holding all six (reason, amount, quantity)
triples read from fixed element positions (2,3,4) ... (17,18,19) with
element 1 as the shared group code; when only the group code and the
first triple are present (raw token count ≤ 5), the result still
contains six triples, triples 2-6 reading "" — no triple is
conditionally suppressed. -/
theorem cas_always_six_triples (cas : Segment) :
    populate_adjustment_groups cas =
      [⟨cas.element 1, cas.element 2, cas.element 3, cas.element 4,
        cas.element 5, cas.element 6, cas.element 7,
        cas.element 8, cas.element 9, cas.element 10,
        cas.element 11, cas.element 12, cas.element 13,
        cas.element 14, cas.element 15, cas.element 16,
        cas.element 17, cas.element 18, cas.element 19⟩] ∧
    (populate_adjustment_groups cas).length = 1 ∧
    (cas.segment_len ≤ 5 →
      populate_adjustment_groups cas =
        [⟨cas.element 1, cas.element 2, cas.element 3, cas.element 4,
          "", "", "", "", "", "", "", "", "", "", "", "", "", "", ""⟩]) := by
  refine ⟨rfl, rfl, fun h => ?_⟩
  have e : ∀ i : Nat, 5 ≤ i → cas.element i = "" := fun i hi =>
    element_default cas i (le_trans h hi)
  simp only [populate_adjustment_groups, adjRecord,
    e 5 (by omega), e 6 (by omega), e 7 (by omega), e 8 (by omega), e 9 (by omega),
    e 10 (by omega), e 11 (by omega), e 12 (by omega), e 13 (by omega),
    e 14 (by omega), e 15 (by omega), e 16 (by omega), e 17 (by omega),
    e 18 (by omega), e 19 (by omega)]

/-- C2, witness: the CAS segment `exCAS` has only the group code and
the first triple, and its unpacking carries fifteen trailing "". -/
theorem cas_always_six_triples_witness :
    populate_adjustment_groups exCAS =
      [⟨exCAS.element 1, exCAS.element 2, exCAS.element 3, exCAS.element 4,
        "", "", "", "", "", "", "", "", "", "", "", "", "", "", ""⟩] :=
  (cas_always_six_triples exCAS).2.2 (by decide)

/-- The k-th reason-code field of a PLB record, k running 1..6. -/
def plb_reason (r : PlbAdjustment) (k : Nat) : Option String :=
  match k with
  | 1 => r.provider_adjustment_reason_cd_1
  | 2 => r.provider_adjustment_reason_cd_2
  | 3 => r.provider_adjustment_reason_cd_3
  | 4 => r.provider_adjustment_reason_cd_4
  | 5 => r.provider_adjustment_reason_cd_5
  | 6 => r.provider_adjustment_reason_cd_6
  | _ => none

/-- The k-th reference-id field of a PLB record, k running 1..6. -/
def plb_id (r : PlbAdjustment) (k : Nat) : Option String :=
  match k with
  | 1 => r.provider_adjustment_id_1
  | 2 => r.provider_adjustment_id_2
  | 3 => r.provider_adjustment_id_3
  | 4 => r.provider_adjustment_id_4
  | 5 => r.provider_adjustment_id_5
  | 6 => r.provider_adjustment_id_6
  | _ => none

/-- The k-th amount field of a PLB record, k running 1..6. -/
def plb_amt (r : PlbAdjustment) (k : Nat) : Option String :=
  match k with
  | 1 => r.provider_adjustment_amt_1
  | 2 => r.provider_adjustment_amt_2
  | 3 => r.provider_adjustment_amt_3
  | 4 => r.provider_adjustment_amt_4
  | 5 => r.provider_adjustment_amt_5
  | 6 => r.provider_adjustment_amt_6
  | _ => none

/-- C3.  In every PLB record unpacked by populate_plb_loop, group k
(k = 1..6, reason code and reference id at composite element 2k+1,
amount at element 2k+2) is populated only when the segment's raw token
count exceeds the group's starting position 2k+1 (the amount
additionally requires > 2k+2); otherwise the group's fields are the
explicit not-present marker `none`, never "".  The segment `exPLB`,
long enough for exactly two groups, yields groups 1-2 populated and
groups 3-6 absent. -/
theorem plb_groups_threshold_guarded :
    (∀ (p : Segment) (k : Nat), 1 ≤ k → k ≤ 6 →
      ((p.segment_len ≤ 2 * k + 1 →
          plb_reason (plbRecord p) k = none ∧ plb_id (plbRecord p) k = none ∧
          plb_amt (plbRecord p) k = none) ∧
       (2 * k + 1 < p.segment_len →
          plb_reason (plbRecord p) k = some (p.element2 (2 * k + 1) 0) ∧
          plb_id (plbRecord p) k = some (p.element2 (2 * k + 1) 1)) ∧
       (2 * k + 2 < p.segment_len →
          plb_amt (plbRecord p) k = some (p.element (2 * k + 2))) ∧
       (p.segment_len ≤ 2 * k + 2 → plb_amt (plbRecord p) k = none))) ∧
    populate_plb_loop [exPLB] = [plbRecord exPLB] ∧
    exPLB.segment_len = 7 ∧
    (plbRecord exPLB).provider_adjustment_reason_cd_1 = some "CO" ∧
    (plbRecord exPLB).provider_adjustment_id_1 = some "ref1" ∧
    (plbRecord exPLB).provider_adjustment_amt_1 = some "10" ∧
    (plbRecord exPLB).provider_adjustment_reason_cd_2 = some "CV" ∧
    (plbRecord exPLB).provider_adjustment_id_2 = some "ref2" ∧
    (plbRecord exPLB).provider_adjustment_amt_2 = some "20" ∧
    (∀ k, 3 ≤ k → k ≤ 6 →
      plb_reason (plbRecord exPLB) k = none ∧
      plb_id (plbRecord exPLB) k = none ∧
      plb_amt (plbRecord exPLB) k = none) := by
  constructor
  · intro p k h1 h6
    interval_cases k <;>
      refine ⟨fun h => ⟨?_, ?_, ?_⟩, fun h => ⟨?_, ?_⟩, fun h => ?_, fun h => ?_⟩ <;>
        simp [plbRecord, plb_reason, plb_id, plb_amt] <;> omega
  · refine ⟨by decide, by decide, by decide, by decide, by decide, by decide,
      by decide, by decide, fun k h3 h6 => ?_⟩
    interval_cases k <;> refine ⟨?_, ?_, ?_⟩ <;> decide

/-- C3, witness: group 3 of the concrete two-group PLB segment is the
explicit not-present marker. -/
theorem plb_groups_threshold_guarded_witness :
    plb_reason (plbRecord exPLB) 3 = none ∧ plb_id (plbRecord exPLB) 3 = none ∧
    plb_amt (plbRecord exPLB) 3 = none :=
  (plb_groups_threshold_guarded.1 exPLB 3 (by decide) (by decide)).1 (by decide)

/-- C4.  For every Remittance, whatever the six supplied loops hold,
to_json is a mapping with exactly the six top-level keys payment,
payer, payee, claim, provider_adjustments and header_info, each
present exactly once. -/
theorem to_json_six_keys (r : Remittance) :
    (r.to_json).map Prod.fst =
      ["payment", "payer", "payee", "claim", "provider_adjustments", "header_info"] ∧
    ((r.to_json).map Prod.fst).Nodup := by
  have h : (r.to_json).map Prod.fst =
      ["payment", "payer", "payee", "claim", "provider_adjustments", "header_info"] := rfl
  refine ⟨h, ?_⟩
  rw [h]
  decide

/-- C5.  For every Segment s and every index i greater than
s.length(), s.element(i) returns "", and sub-element access
s.element2(i, j) likewise returns "" for every j; in this total model
no accessor can raise, absence is signalled by the empty string. -/
theorem segment_element_out_of_range (s : Segment) (i : Nat) (h : s.length < i) :
    s.element i = "" ∧ ∀ j, s.element2 i j = "" := by
  have hlen : s.tokens.length ≤ i := by
    unfold Segment.length at h
    omega
  have he : s.element i = "" := List.getD_eq_default _ _ hlen
  refine ⟨he, fun j => ?_⟩
  unfold Segment.element2
  rw [he]
  cases j
  · rfl
  · rfl

/-- C5, witness: index 7 exceeds exNM1's element count, and both the
element and a sub-element read "". -/
theorem segment_element_out_of_range_witness :
    exNM1.element 7 = "" ∧ exNM1.element2 7 2 = "" :=
  ⟨(segment_element_out_of_range exNM1 7 (by decide)).1,
   (segment_element_out_of_range exNM1 7 (by decide)).2 2⟩

/-- C6.  Payer and payee projections of a loop lacking a given segment
kind default every field derived from that segment to "" and every
repeatable group to the empty sequence; the fixed key set is the
record type itself, so no key can be missing and no error is raised. -/
theorem payer_payee_absent_segments_default (loop : List Segment) :
    ((∀ s ∈ loop, ¬ s.segment_name = "N1") →
       (populate_payer_loop loop).entity_identifier_code = "" ∧
       (populate_payer_loop loop).payer_name = "" ∧
       (populate_payer_loop loop).id_code_qualifier = "" ∧
       (populate_payer_loop loop).payer_identifier = "" ∧
       (populate_payer_loop loop).entity_relationship_code = "" ∧
       (populate_payee_loop loop).entity_identifier_code = "" ∧
       (populate_payee_loop loop).payee_name = "" ∧
       (populate_payee_loop loop).id_code_qualifier = "" ∧
       (populate_payee_loop loop).payee_identifier = "" ∧
       (populate_payee_loop loop).entity_relationship_code = "") ∧
    ((∀ s ∈ loop, ¬ s.segment_name = "N3") →
       (populate_payer_loop loop).payer_address_line_1 = "" ∧
       (populate_payer_loop loop).payer_address_line_2 = "" ∧
       (populate_payee_loop loop).payee_address_line_1 = "" ∧
       (populate_payee_loop loop).payee_address_line_2 = "") ∧
    ((∀ s ∈ loop, ¬ s.segment_name = "N4") →
       (populate_payer_loop loop).payer_city_name = "" ∧
       (populate_payer_loop loop).payer_state_code = "" ∧
       (populate_payer_loop loop).payer_postal_zone_or_zip_code = "" ∧
       (populate_payer_loop loop).country_code = "" ∧
       (populate_payer_loop loop).location_qualifier = "" ∧
       (populate_payer_loop loop).country_subdivision_code = "" ∧
       (populate_payee_loop loop).payee_city_name = "" ∧
       (populate_payee_loop loop).payee_state_code = "" ∧
       (populate_payee_loop loop).payee_postal_zone_or_zip_code = "" ∧
       (populate_payee_loop loop).country_code = "" ∧
       (populate_payee_loop loop).location_qualifier = "" ∧
       (populate_payee_loop loop).country_subdivision_code = "") ∧
    ((∀ s ∈ loop, ¬ s.segment_name = "RDM") →
       (populate_payee_loop loop).delivery_report_transmission_code = "" ∧
       (populate_payee_loop loop).delivery_name = "" ∧
       (populate_payee_loop loop).delivery_communication_number = "" ∧
       (populate_payee_loop loop).delivery_reference_identifier = "") ∧
    ((∀ s ∈ loop, ¬ s.segment_name = "PER") →
       (populate_payer_loop loop).payer_contact_info = []) ∧
    ((∀ s ∈ loop, ¬ s.segment_name = "REF") →
       (populate_payer_loop loop).payer_additional_identification = [] ∧
       (populate_payee_loop loop).payee_additional_identification = []) := by
  refine ⟨fun h => ?_, fun h => ?_, fun h => ?_, fun h => ?_, fun h => ?_, fun h => ?_⟩ <;>
    simp [populate_payer_loop, populate_payee_loop, first_eq_empty h,
      segments_by_name_eq_nil h, empty_element]

/-- C6, witness: a loop holding only a DTM segment yields "" fields
and empty repeatable groups for payer and payee. -/
theorem payer_payee_absent_segments_default_witness :
    (populate_payer_loop [exDTM]).payer_name = "" ∧
    (populate_payer_loop [exDTM]).payer_contact_info = [] ∧
    (populate_payee_loop [exDTM]).delivery_name = "" ∧
    (populate_payee_loop [exDTM]).payee_additional_identification = [] :=
  ⟨((payer_payee_absent_segments_default [exDTM]).1 (by decide)).2.1,
   (payer_payee_absent_segments_default [exDTM]).2.2.2.2.1 (by decide),
   ((payer_payee_absent_segments_default [exDTM]).2.2.2.1 (by decide)).2.1,
   ((payer_payee_absent_segments_default [exDTM]).2.2.2.2.2 (by decide)).2⟩

/-- C8.  For every transaction-set segment sequence containing an ST
segment (at first matching position i), constructing a Transaction
sets the three header fields to elements 1, 2 and 3 of that ST
segment. -/
theorem transaction_st_fields_from_first_st (segs : List Segment) (i : Nat)
    (hi : i < segs.length)
    (hst : (segs.getD i Segment.empty).segment_name = "ST")
    (hfirst : ∀ j, j < i → ¬ (segs.getD j Segment.empty).segment_name = "ST") :
    (mkTransaction segs).transaction_set_identifier_code =
      some ((segs.getD i Segment.empty).element 1) ∧
    (mkTransaction segs).transaction_set_control_number =
      some ((segs.getD i Segment.empty).element 2) ∧
    (mkTransaction segs).implementation_convention_reference =
      some ((segs.getD i Segment.empty).element 3) := by
  have hf : segs.find? (fun s => s.segment_name == "ST") =
      some (segs.getD i Segment.empty) :=
    find?_eq_getD _ segs i hi (by simpa using hst)
      (fun j hj => by simpa using hfirst j hj)
  simp [mkTransaction, parse_st_segment, hf]

/-- C8, witness: in `exMultiST` the first ST is at position 1 and the
Transaction header fields come from its elements 1-3. -/
theorem transaction_st_fields_from_first_st_witness :
    (mkTransaction exMultiST).transaction_set_identifier_code =
      some ((exMultiST.getD 1 Segment.empty).element 1) ∧
    (mkTransaction exMultiST).transaction_set_control_number =
      some ((exMultiST.getD 1 Segment.empty).element 2) ∧
    (mkTransaction exMultiST).implementation_convention_reference =
      some ((exMultiST.getD 1 Segment.empty).element 3) :=
  transaction_st_fields_from_first_st exMultiST 1 (by decide) (by decide)
    (by intro j hj; interval_cases j; decide)

/-- C10.  Constructing a Transaction from a sequence with no ST
segment succeeds and leaves the three header fields `none` (not "");
with more than one ST present the fields come from the first ST in
document order, wherever it occurs. -/
theorem transaction_no_st_fields_none :
    (∀ segs : List Segment, (∀ s ∈ segs, ¬ s.segment_name = "ST") →
       (mkTransaction segs).transaction_set_identifier_code = none ∧
       (mkTransaction segs).transaction_set_control_number = none ∧
       (mkTransaction segs).implementation_convention_reference = none) ∧
    (mkTransaction exMultiST).transaction_set_identifier_code = some "835" ∧
    (mkTransaction exMultiST).transaction_set_control_number = some "0001" ∧
    (mkTransaction exMultiST).implementation_convention_reference =
      some "005010X221A1" ∧
    (exMultiST.getD 1 Segment.empty).segment_name = "ST" ∧
    (exMultiST.getD 2 Segment.empty).segment_name = "ST" ∧
    (exMultiST.getD 2 Segment.empty).element 1 = "837" := by
  constructor
  · intro segs h
    have hf : segs.find? (fun s => s.segment_name == "ST") = none := by
      rw [List.find?_eq_none]
      intro x hx
      simp [h x hx]
    simp [mkTransaction, parse_st_segment, hf]
  · refine ⟨by decide, by decide, by decide, by decide, by decide, by decide⟩

/-- C10, witness: a two-segment sequence with no ST yields all three
header fields `none`. -/
theorem transaction_no_st_fields_none_witness :
    (mkTransaction [exBPR, exDTM]).transaction_set_identifier_code = none ∧
    (mkTransaction [exBPR, exDTM]).transaction_set_control_number = none ∧
    (mkTransaction [exBPR, exDTM]).implementation_convention_reference = none :=
  transaction_no_st_fields_none.1 [exBPR, exDTM] (by decide)

/-- `getD` on a mapped segment list with the mapped default. -/
lemma getD_map_segment {β : Type} (f : Segment → β) (l : List Segment) (k : Nat) :
    (l.map f).getD k (f Segment.empty) = f (l.getD k Segment.empty) := by
  induction l generalizing k with
  | nil => cases k <;> rfl
  | cons a T ih =>
    cases k with
    | zero => rfl
    | succ k => exact ih k

/-- C9.  In every record produced by populate_claim_line, the
supplemental-quantity list is built from the AMT segments of the
line's slice — the very segments that populate the
supplemental-amount list — so the two lists have equal length, and the
k-th quantity record's qty field is element 2 of the k-th AMT
segment. -/
theorem claim_line_quantity_from_amt (clm_loop : List Segment) (svc : Segment)
    (idx svc_end_idx : Nat) :
    (populate_claim_line clm_loop svc idx svc_end_idx).claim_line_supplemental_quantity =
      (segments_by_name "AMT" (pyslice clm_loop idx svc_end_idx)).map
        (fun a => ⟨a.element 1, a.element 2, a.element 3⟩) ∧
    (populate_claim_line clm_loop svc idx svc_end_idx).claim_line_supplemental_quantity.length =
      (populate_claim_line clm_loop svc idx svc_end_idx).claim_line_supplemental_amount.length ∧
    ∀ k : Nat,
      ((populate_claim_line clm_loop svc idx
          svc_end_idx).claim_line_supplemental_quantity.getD k ⟨"", "", ""⟩).qty =
        ((segments_by_name "AMT" (pyslice clm_loop idx svc_end_idx)).getD
            k Segment.empty).element 2 := by
  refine ⟨rfl, by simp [populate_claim_line], fun k => ?_⟩
  have h := getD_map_segment
    (fun a : Segment => (⟨a.element 1, a.element 2, a.element 3⟩ : LineQtyInfo))
    (segments_by_name "AMT" (pyslice clm_loop idx svc_end_idx)) k
  exact congrArg LineQtyInfo.qty h

/-- C1, counterexample: in the claim loop `cexLoop` = [CLP, SVC, CAS]
the only (hence last) SVC's claim line is projected from the slice
[1, 2) — `min(index_of, len - 1)` — not from the slice [1, 3) running
to the end of the claim-loop range, so the final CAS segment is left
out of the line's adjustments, contrary to the claim. -/
theorem claim_line_last_svc_range_cex :
    (populate_claim_loop cexLoop).claim_lines =
      [populate_claim_line cexLoop exSVC 1 2] ∧
    (populate_claim_loop cexLoop).claim_lines ≠
      [populate_claim_line cexLoop exSVC 1 cexLoop.length] ∧
    (populate_claim_line cexLoop exSVC 1 cexLoop.length).claim_line_adjustments =
      [adjRecord exCAS] ∧
    (populate_claim_loop cexLoop).claim_lines.map
      (fun c => c.claim_line_adjustments) = [[]] := by
  refine ⟨by decide, by decide, by decide, by decide⟩

/-- C1, amended.  claim_lines holds exactly one record per SVC
position, in document order; the record at SVC position i is projected
from the slice [i, min(next SVC position, length - 1)) — for the last
SVC this stops one short of the end of the claim-loop range, excluding
the loop's final segment.  A loop with one CLP and two SVC segments
still yields exactly two records ordered by source position. -/
theorem claim_lines_svc_partition :
    (∀ L : List Segment,
      (populate_claim_loop L).claim_lines =
        (name_positions "SVC" L).map (fun i =>
          populate_claim_line L (L.getD i Segment.empty) i
            (min (index_of_segment L "SVC" (i + 1)) (L.length - 1))) ∧
      (name_positions "SVC" L).Pairwise (· < ·) ∧
      (populate_claim_loop L).claim_lines.length =
        (name_positions "SVC" L).length) ∧
    name_positions "SVC" exLoop2 = [1, 4] ∧
    (populate_claim_loop exLoop2).claim_lines.length = 2 ∧
    (populate_claim_loop exLoop2).claim_lines =
      [populate_claim_line exLoop2 exSVC 1 4,
       populate_claim_line exLoop2 exSVC2 4 5] := by
  constructor
  · intro L
    have h1 : (populate_claim_loop L).claim_lines =
        (name_positions "SVC" L).map (fun i =>
          populate_claim_line L (L.getD i Segment.empty) i
            (min (index_of_segment L "SVC" (i + 1)) (L.length - 1))) := by
      show (segments_by_name_index "SVC" L).map _ = _
      rw [segments_by_name_index_eq, List.map_map]
      rfl
    refine ⟨h1, ?_, ?_⟩
    · exact (List.pairwise_lt_range _).filter _
    · rw [h1, List.length_map]
  · refine ⟨by decide, by decide, by decide⟩

/-- C7, counterexample: in the claim loop `cex7Loop` = [CLP, CAS]
there is no SVC, index_of_segment correctly falls back to the sequence
length, yet the CAS segment after the leading CLP contributes nothing:
the slice end is `min(length, length - 1) = length - 1`, which cuts
the final segment off. -/
theorem claim_adjustments_no_svc_cex :
    index_of_segment cex7Loop "SVC" 0 = cex7Loop.length ∧
    (cex7Loop.getD 1 Segment.empty).segment_name = "CAS" ∧
    (populate_claim_loop cex7Loop).claim_adjustments = [] := by
  refine ⟨by decide, by decide, by decide⟩

/-- C7, amended.  claim_adjustments holds exactly the adjustment
records of the CAS segments at positions p with
1 ≤ p < min(first SVC position, length - 1), in document order; with
no SVC the search index falls back to the sequence length (never a
negative index), so the CAS segments after the leading CLP contribute
except one at the loop's final position. -/
theorem claim_adjustments_position_char :
    (∀ L : List Segment,
      (populate_claim_loop L).claim_adjustments =
        ((List.range L.length).filter (fun p =>
            decide (1 ≤ p) && decide (p < claim_cas_end L) &&
            ((L.getD p Segment.empty).segment_name == "CAS"))).map
          (fun p => adjRecord (L.getD p Segment.empty))) ∧
    (∀ L : List Segment, (∀ s ∈ L, ¬ s.segment_name = "SVC") →
      index_of_segment L "SVC" 0 = L.length) ∧
    (populate_claim_loop exAdjLoop).claim_adjustments =
      [adjRecord exCAS, adjRecord exCAS] := by
  refine ⟨fun L => ?_, fun L h => index_of_segment_eq_length 0 h, by decide⟩
  show ((segments_by_name "CAS" (pyslice L 1 (claim_cas_end L))).map
      populate_adjustment_groups).foldl (· ++ ·) [] = _
  rw [foldl_adjustment_groups, List.nil_append]
  rw [segments_by_name, pyslice_one_filter, List.map_map]
  rfl

/-- C7, amended, witness: a loop with no SVC has the fallback search
index equal to its length. -/
theorem claim_adjustments_position_char_witness :
    index_of_segment exAdjLoop "SVC" 0 = exAdjLoop.length :=
  claim_adjustments_position_char.2.1 exAdjLoop (by decide)

end X12
